import Mathlib

/-!
Shallow embedding of `scripts/fetch_events.py` (IndyCentral): a single-pass
fetch → allowlist-filter → normalize → serialize pipeline for music events.

Python strings are modelled as Lean `String` (lists of characters); `None`
versus present JSON values are modelled with `Option`; Python's exception
exits (`raise RuntimeError`) are modelled with `Except`.  The ASCII core of
Python's `str.strip`, `str.lower` and the `\w`/`\s` regex character classes
is used; none of the verified properties depends on the non-ASCII cases.
-/

deriving instance DecidableEq for Except

namespace IndyCentral

/-- Characters matched by Python's regex class `\s` (ASCII core). -/
def isSpaceChar (c : Char) : Bool := c.isWhitespace

/-- Drop leading and trailing whitespace from a character list; this is
Python's `str.strip()` acting on the character sequence. -/
def trimChars (l : List Char) : List Char :=
  ((l.dropWhile isSpaceChar).reverse.dropWhile isSpaceChar).reverse

/-- Python `text.strip()` (no argument: strips whitespace at both ends). -/
def pyStrip (s : String) : String := String.mk (trimChars s.data)

/-- Python `str.lower` on one character (ASCII core). -/
def pyLowerChar (c : Char) : Char :=
  if c.isUpper then Char.ofNat (c.toNat + 32) else c

/-- Characters matched by Python's regex class `\w` (ASCII core):
alphanumerics and underscore. -/
def isWordChar (c : Char) : Bool := c.isAlphanum || c = '_'

/-- Characters kept by `re.sub(r"[^\w\s-]", "", text)` in `slugify`. -/
def keepChar (c : Char) : Bool := isWordChar c || isSpaceChar c || c = '-'

/-- Characters matched by the class `[\s_-]` in `slugify`. -/
def isSep (c : Char) : Bool := isSpaceChar c || c = '_' || c = '-'

/-- Effect of `re.sub(r"[\s_-]+", "-", text)`: each maximal run of
whitespace/underscore/hyphen characters becomes a single hyphen. -/
def collapseSeps : List Char → List Char
  | [] => []
  | [c] => if isSep c then ['-'] else [c]
  | c :: d :: rest =>
    if isSep c then
      if isSep d then collapseSeps (d :: rest)
      else '-' :: collapseSeps (d :: rest)
    else c :: collapseSeps (d :: rest)

/-- Python `text.strip("-")`: drop leading and trailing hyphens. -/
def stripHyphens (l : List Char) : List Char :=
  ((l.dropWhile (fun c => c = '-')).reverse.dropWhile (fun c => c = '-')).reverse

/-- The cleaning stages of `slugify` before truncation and the `"event"`
default: lowercase, strip, remove characters outside `[\w\s-]`, collapse
separator runs to single hyphens, strip hyphens. -/
def slugClean (text : String) : List Char :=
  stripHyphens (collapseSeps ((trimChars (text.data.map pyLowerChar)).filter keepChar))

/-- `slugify` from `fetch_events.py`:
`text.lower().strip()`, remove `[^\w\s-]`, collapse `[\s_-]+` to `-`,
then `text.strip("-")[:90] or "event"`. -/
def slugify (text : String) : String :=
  if ((slugClean text).take 90).isEmpty then "event"
  else String.mk ((slugClean text).take 90)

/-- Python `event_id[-6:]`: the last (at most) six characters of a string. -/
def lastSix (s : String) : String :=
  String.mk (s.data.drop (s.data.length - 6))

/-- Python `a or b` on strings: `a` when `a` is truthy (non-empty), else `b`. -/
def pyOr (a b : String) : String := if a ≠ "" then a else b

/-- The slug assembled in `main`:
`slug_base = slugify(f"{name}-{venue_name}-{local_date}")` followed by
`slug = f"{slug_base}-{event_id[-6:]}" if event_id else slug_base`. -/
def mkSlug (name venueName localDate eventId : String) : String :=
  if eventId ≠ "" then
    slugify (name ++ "-" ++ venueName ++ "-" ++ localDate) ++ "-" ++ lastSix eventId
  else slugify (name ++ "-" ++ venueName ++ "-" ++ localDate)

/-- One embedded venue object of a raw upstream event.  `cityName` models
the nested access `(venue_obj.get("city") or {}).get("name", "")` and
`stateCode` models `(venue_obj.get("state") or {}).get("stateCode", "")`;
`none` stands for an absent (or null) value at any level. -/
structure RawVenue where
  name : Option String
  cityName : Option String
  stateCode : Option String
  url : Option String
  id : Option String
deriving DecidableEq

/-- The `start` sub-object of an event's `dates` object. -/
structure StartInfo where
  localDate : Option String
  localTime : Option String
  dateTime : Option String
deriving DecidableEq

/-- The empty dictionary default of
`(e.get("dates", {}) or {}).get("start", {}) or {}`. -/
def emptyStart : StartInfo := ⟨none, none, none⟩

/-- One raw upstream event.  `datesStart` models `e["dates"]["start"]`
(`none` when either level is absent or null); `venues` models
`e.get("_embedded", {}).get("venues", [])` with the default `[]` already
applied. -/
structure RawEvent where
  name : Option String
  id : Option String
  url : Option String
  datesStart : Option StartInfo
  venues : List RawVenue
deriving DecidableEq

/-- The parsed upstream response body; `embeddedEvents` models
`raw.get("_embedded", {}).get("events", [])` with the default `[]` already
applied. -/
structure RawResponse where
  embeddedEvents : List RawEvent
deriving DecidableEq

/-- The flat output record appended to `events_out` in `main`. -/
structure NormalizedEvent where
  id : String
  name : String
  url : String
  dateLocal : String
  dateDisplay : String
  city : String
  state : String
  venueName : String
  venueUrl : Option String
  venueId : Option String
  slug : String
  source : String
deriving DecidableEq

/-- The three observable states of the allowlist file at
`data/venues_allowlist.json`: absent (`FileNotFoundError`), present but
unreadable or unparsable (any other exception), or parsed into a JSON
array whose elements are already converted by `str(x)`. -/
inductive AllowlistFile where
  | missing
  | malformed
  | parsed (items : List String)
deriving DecidableEq

/-- `load_allowlist` from `fetch_events.py`: a missing file and any parse
failure both yield the empty set; otherwise the set comprehension
`{str(x).strip() for x in items if str(x).strip()}`. -/
def load_allowlist : AllowlistFile → Finset String
  | .missing => ∅
  | .malformed => ∅
  | .parsed items => ((items.map pyStrip).filter (fun s => s ≠ "")).toFinset

/-- The data of the `RuntimeError` raised in `fetch` on an `HTTPError`:
`f"Ticketmaster HTTP {e.code} {e.reason}\nURL: {url}\nBODY:\n{body}"`. -/
structure FetchError where
  code : Nat
  reason : String
  url : String
  body : String
deriving DecidableEq

/-- Outcome of the single upstream HTTP GET: a parsed JSON payload, or an
`HTTPError` whose body read (`e.read().decode(...)`) either succeeded
(`some`) or itself raised (`none`). -/
inductive HttpResult where
  | success (payload : RawResponse)
  | httpError (code : Nat) (reason : String) (body : Option String)
deriving DecidableEq

/-- The best-effort body decode in `fetch`: the decoded body when readable,
the literal placeholder `"(no response body)"` when reading it raised. -/
def decodeBody : Option String → String
  | some b => b
  | none => "(no response body)"

/-- `fetch` from `fetch_events.py`, with the network effect factored out:
a successful GET returns the parsed payload, an `HTTPError` raises a
`FetchError` carrying status code, reason, URL and best-effort body. -/
def fetch (url : String) (r : HttpResult) : Except FetchError RawResponse :=
  match r with
  | .success payload => .ok payload
  | .httpError code reason body =>
      .error { code := code, reason := reason, url := url, body := decodeBody body }

/-- The loop body of `main` that builds one `NormalizedEvent` from a raw
event and its first embedded venue object. -/
def normalizeEvent (e : RawEvent) (venueObj : RawVenue) : NormalizedEvent :=
  let venueName := pyStrip (venueObj.name.getD "")
  let name := e.name.getD "Event"
  let start := e.datesStart.getD emptyStart
  let localDate := start.localDate.getD ""
  let localTime := start.localTime.getD ""
  let dateTimeUtc := start.dateTime.getD ""
  let dateDisplay :=
    if localDate ≠ "" ∧ localTime ≠ "" then localDate ++ " " ++ localTime
    else pyOr localDate (pyOr dateTimeUtc "")
  { id := e.id.getD ""
    name := name
    url := e.url.getD ""
    dateLocal := pyOr dateTimeUtc localDate
    dateDisplay := dateDisplay
    city := venueObj.cityName.getD ""
    state := venueObj.stateCode.getD ""
    venueName := venueName
    venueUrl := venueObj.url
    venueId := venueObj.id
    slug := mkSlug name venueName localDate (e.id.getD "")
    source := "ticketmaster" }

/-- One iteration of the `for e in ...events` loop in `main`: `none` when
the event is skipped (no embedded venue, or filtered by a non-empty
allowlist), `some` of the normalized record otherwise. -/
def processEvent (allowlist : Finset String) (e : RawEvent) : Option NormalizedEvent :=
  match e.venues with
  | [] => none
  | venueObj :: _ =>
    if allowlist ≠ ∅ ∧ pyStrip (venueObj.name.getD "") ∉ allowlist then none
    else some (normalizeEvent e venueObj)

/-- The whole event loop of `main`: the `events_out` list it accumulates. -/
def processEvents (allowlist : Finset String) (events : List RawEvent) : List NormalizedEvent :=
  events.filterMap (processEvent allowlist)

/-- The market metadata echoed into the output document (resolved
configuration values `LAT`, `LON`, `RADIUS`, `DAYS` and the fixed label). -/
structure Market where
  label : String
  lat : Rat
  lon : Rat
  radiusMiles : Int
  daysAhead : Int
deriving DecidableEq

/-- The environment-derived inputs of a run: the raw value of
`os.getenv("TICKETMASTER_API_KEY") or ""` and the resolved market. -/
structure Env where
  apiKeyRaw : String
  market : Market
deriving DecidableEq

/-- Module-level `API_KEY = (os.getenv("TICKETMASTER_API_KEY") or "").strip()`. -/
def apiKey (env : Env) : String := pyStrip env.apiKeyRaw

/-- The message of the `RuntimeError` raised by `main` on a blank API key. -/
def missingKeyMsg : String :=
  "Missing TICKETMASTER_API_KEY (GitHub Secret name must be exactly TICKETMASTER_API_KEY)."

/-- The two fatal error classes of a run, distinguished by raise site:
the API-key configuration check in `main` and the HTTP failure in `fetch`. -/
inductive RunError where
  | configurationError (msg : String)
  | fetchError (e : FetchError)
deriving DecidableEq

/-- The output document written to `data/events.json`. -/
structure OutputDoc where
  generatedAt : String
  market : Market
  count : Nat
  events : List NormalizedEvent
deriving DecidableEq

/-- `main` from `fetch_events.py` with its effects factored out: the API-key
check, allowlist load, single fetch, event loop and output assembly.
`url` is the query URL built by `build_url` and `genTime` the UTC-Z
timestamp taken when the output document is assembled; file serialization
is outside the model (the document is returned). -/
def main (env : Env) (allowFile : AllowlistFile) (http : HttpResult)
    (url : String) (genTime : String) : Except RunError OutputDoc :=
  if apiKey env = "" then .error (.configurationError missingKeyMsg)
  else
    let allowlist := load_allowlist allowFile
    match fetch url http with
    | .error fe => .error (.fetchError fe)
    | .ok raw =>
      let eventsOut := processEvents allowlist raw.embeddedEvents
      .ok { generatedAt := genTime
            market := env.market
            count := eventsOut.length
            events := eventsOut }

/-- The `dateDisplay` fallback chain exactly as the specification words it:
`"localDate localTime"` when both are present, else `localDate`, else the
raw UTC timestamp, else the empty string.  Stated separately from
`normalizeEvent` so that the code's computation can be compared with it. -/
def dateDisplaySpec (localDate localTime utc : String) : String :=
  if localDate ≠ "" ∧ localTime ≠ "" then localDate ++ " " ++ localTime
  else if localDate ≠ "" then localDate
  else if utc ≠ "" then utc
  else ""

/-- Replace the embedded venue list of a raw event, leaving every other
field unchanged; used to state that only the first venue matters. -/
def setVenues (e : RawEvent) (vs : List RawVenue) : RawEvent := { e with venues := vs }

/-! Concrete fixtures used by witnesses and counterexamples. -/

/-- A venue object with every field populated. -/
def vogueVenue : RawVenue :=
  { name := some "The Vogue"
    cityName := some "Indianapolis"
    stateCode := some "IN"
    url := some "https://www.thevogue.com"
    id := some "KovZpZA6kvlA" }

/-- A raw event that carries no `id` field. -/
def evNoId : RawEvent :=
  { name := some "Mystery Show", id := none, url := none, datesStart := none
    venues := [vogueVenue] }

/-- A fully populated raw event. -/
def evWithId : RawEvent :=
  { name := some "Rock Night"
    id := some "G5vYZ9231abcd"
    url := some "https://www.ticketmaster.com/event/1"
    datesStart := some { localDate := some "2026-05-01", localTime := some "19:00:00"
                         dateTime := some "2026-05-01T23:00:00Z" }
    venues := [vogueVenue] }

/-- A raw event with no embedded venue at all. -/
def evNoVenue : RawEvent :=
  { name := some "Orphan Event", id := some "zz99", url := none, datesStart := none
    venues := [] }

/-- A resolved market matching the script's default configuration. -/
def mkt : Market :=
  { label := "Indianapolis, IN metro", lat := 39.7684, lon := -86.1581
    radiusMiles := 35, daysAhead := 180 }

/-- An environment whose API key is present and non-blank. -/
def envOk : Env := { apiKeyRaw := "test-key", market := mkt }

/-- An environment whose API key is whitespace only. -/
def envBlank : Env := { apiKeyRaw := "   ", market := mkt }

/-- A single-event upstream payload. -/
def payloadOne : RawResponse := { embeddedEvents := [evWithId] }

/-- The output document produced from `payloadOne` with an empty allowlist. -/
def outDocOne : OutputDoc :=
  { generatedAt := "2026-10-12T00:00:00Z", market := mkt, count := 1
    events := processEvents ∅ [evWithId] }

/-- The output document produced from a payload holding only `evNoVenue`. -/
def outDocEmpty : OutputDoc :=
  { generatedAt := "2026-10-12T00:00:00Z", market := mkt, count := 0, events := [] }

/-! Helper lemmas. -/

/-- A string whose character list is a cons cell is not the empty string. -/
theorem mk_cons_ne_empty (c : Char) (cs : List Char) : String.mk (c :: cs) ≠ "" := by
  intro h
  have hd : c :: cs = ([] : List Char) := congrArg String.data h
  exact List.noConfusion hd

/-- `slugify` never returns the empty string: either the cleaned base is
empty and the literal `"event"` is returned, or a non-empty truncation is. -/
theorem slugify_ne_empty (s : String) : slugify s ≠ "" := by
  unfold slugify
  cases h : (slugClean s).take 90 with
  | nil => decide
  | cons c cs =>
    simp only [List.isEmpty_cons, Bool.false_eq_true, if_false]
    exact mk_cons_ne_empty c cs

/-- `slugify` truncates to at most 90 characters. -/
theorem slugify_length_le (s : String) : (slugify s).length ≤ 90 := by
  unfold slugify
  cases h : (slugClean s).take 90 with
  | nil => decide
  | cons c cs =>
    simp only [List.isEmpty_cons, Bool.false_eq_true, if_false]
    show (c :: cs).length ≤ 90
    rw [← h]
    exact List.length_take_le 90 (slugClean s)

/-- The `[-6:]` suffix has at most six characters. -/
theorem lastSix_length_le (s : String) : (lastSix s).length ≤ 6 := by
  show (s.data.drop (s.data.length - 6)).length ≤ 6
  rw [List.length_drop]
  omega

/-- A string of positive length is not empty. -/
theorem ne_empty_of_length_pos {s : String} (h : 0 < s.length) : s ≠ "" := by
  intro he
  rw [he] at h
  exact Nat.lt_irrefl 0 h

/-- A non-empty string has positive length. -/
theorem length_pos_of_ne_empty {s : String} (h : s ≠ "") : 0 < s.length := by
  cases hd : s.data with
  | nil => exact absurd (String.ext hd) h
  | cons c cs =>
    show 0 < s.data.length
    rw [hd]
    exact Nat.succ_pos cs.length

/-- The slug assembled in `main` is never empty. -/
theorem mkSlug_ne_empty (n v d i : String) : mkSlug n v d i ≠ "" := by
  unfold mkSlug
  by_cases hi : i ≠ ""
  · rw [if_pos hi]
    apply ne_empty_of_length_pos
    rw [String.length_append, String.length_append]
    have := length_pos_of_ne_empty (slugify_ne_empty (n ++ "-" ++ v ++ "-" ++ d))
    omega
  · rw [if_neg hi]
    exact slugify_ne_empty (n ++ "-" ++ v ++ "-" ++ d)

/-- The slug assembled in `main` has at most 97 characters: a base of at
most 90, a hyphen, and an id suffix of at most 6. -/
theorem mkSlug_length_le (n v d i : String) : (mkSlug n v d i).length ≤ 97 := by
  unfold mkSlug
  by_cases hi : i ≠ ""
  · rw [if_pos hi, String.length_append, String.length_append]
    have h1 := slugify_length_le (n ++ "-" ++ v ++ "-" ++ d)
    have h2 := lastSix_length_le i
    have h3 : ("-" : String).length = 1 := rfl
    omega
  · rw [if_neg hi]
    have := slugify_length_le (n ++ "-" ++ v ++ "-" ++ d)
    omega

/-- Membership in the accumulated output list, unfolded to the loop body. -/
theorem mem_processEvents {a : Finset String} {l : List RawEvent} {ne : NormalizedEvent} :
    ne ∈ processEvents a l ↔ ∃ e ∈ l, processEvent a e = some ne := by
  simp [processEvents, List.mem_filterMap]

/-- An event with no embedded venue is skipped. -/
theorem processEvent_venues_nil {a : Finset String} {e : RawEvent}
    (hv : e.venues = []) : processEvent a e = none := by
  unfold processEvent
  rw [hv]

/-- The loop body on an event whose venue list starts with `v`. -/
theorem processEvent_venues_cons {a : Finset String} {e : RawEvent} {v : RawVenue}
    {rest : List RawVenue} (hv : e.venues = v :: rest) :
    processEvent a e =
      if a ≠ ∅ ∧ pyStrip (v.name.getD "") ∉ a then none
      else some (normalizeEvent e v) := by
  unfold processEvent
  rw [hv]

/-- Inversion of the loop body: a produced record comes from the first
venue of an event that passed the allowlist test. -/
theorem processEvent_eq_some {a : Finset String} {e : RawEvent} {ne : NormalizedEvent}
    (h : processEvent a e = some ne) :
    ∃ v rest, e.venues = v :: rest ∧ ¬(a ≠ ∅ ∧ pyStrip (v.name.getD "") ∉ a)
      ∧ ne = normalizeEvent e v := by
  cases hv : e.venues with
  | nil => rw [processEvent_venues_nil hv] at h; exact Option.noConfusion h
  | cons v rest =>
    rw [processEvent_venues_cons hv] at h
    by_cases hc : a ≠ ∅ ∧ pyStrip (v.name.getD "") ∉ a
    · rw [if_pos hc] at h; exact Option.noConfusion h
    · rw [if_neg hc] at h
      exact ⟨v, rest, rfl, hc, (Option.some.inj h).symm⟩

/-- A blank API key aborts `main` before the allowlist load and the fetch. -/
theorem main_blank_key {env : Env} (hk : apiKey env = "") (f : AllowlistFile)
    (http : HttpResult) (url t : String) :
    main env f http url t = .error (.configurationError missingKeyMsg) := by
  unfold main
  rw [if_pos hk]

/-- With a non-blank API key and a successful fetch, `main` returns the
assembled output document. -/
theorem main_success {env : Env} {f : AllowlistFile} {p : RawResponse} {url t : String}
    (hk : apiKey env ≠ "") :
    main env f (.success p) url t =
      .ok { generatedAt := t, market := env.market
            count := (processEvents (load_allowlist f) p.embeddedEvents).length
            events := processEvents (load_allowlist f) p.embeddedEvents } := by
  unfold main
  rw [if_neg hk]
  rfl

/-- The `venueName` field of a normalized record. -/
theorem normalizeEvent_venueName (e : RawEvent) (v : RawVenue) :
    (normalizeEvent e v).venueName = pyStrip (v.name.getD "") := rfl

/-- The `id` field of a normalized record. -/
theorem normalizeEvent_id (e : RawEvent) (v : RawVenue) :
    (normalizeEvent e v).id = e.id.getD "" := rfl

/-- The `slug` field of a normalized record. -/
theorem normalizeEvent_slug (e : RawEvent) (v : RawVenue) :
    (normalizeEvent e v).slug =
      mkSlug (e.name.getD "Event") (pyStrip (v.name.getD ""))
        ((e.datesStart.getD emptyStart).localDate.getD "") (e.id.getD "") := rfl

/-- The truthiness fallback `local_date or date_time_utc or ""` together
with the two-field branch agrees with the specification's chain. -/
theorem pyOr_chain (ld lt utc : String) :
    (if ld ≠ "" ∧ lt ≠ "" then ld ++ " " ++ lt else pyOr ld (pyOr utc "")) =
      dateDisplaySpec ld lt utc := by
  unfold dateDisplaySpec pyOr
  by_cases h1 : ld = "" <;> by_cases h2 : lt = "" <;> by_cases h3 : utc = "" <;>
    simp [h1, h2, h3]

/-! Claim theorems. -/

/-- C1 (counterexample): the claim that every record appended to the output
events sequence has a non-empty `id` and a non-empty `slug` is false on
the code: an upstream event without an `id` field is normalized with
`id = ""` and still appended. -/
theorem C1_counterexample :
    ¬ (∀ out, main envOk AllowlistFile.missing (HttpResult.success ⟨[evNoId]⟩)
          "https://example/q" "2026-10-12T00:00:00Z" = .ok out →
        ∀ ne ∈ out.events, ne.id ≠ "" ∧ ne.slug ≠ "") := by
  intro h
  have hrun : main envOk AllowlistFile.missing (HttpResult.success ⟨[evNoId]⟩)
      "https://example/q" "2026-10-12T00:00:00Z" =
      .ok { generatedAt := "2026-10-12T00:00:00Z", market := mkt, count := 1
            events := processEvents ∅ [evNoId] } := by rfl
  have hmem : normalizeEvent evNoId vogueVenue ∈ processEvents (∅ : Finset String) [evNoId] := by
    decide
  exact (h _ hrun _ hmem).1 (by decide)

/-- C1 (amended): every record appended to the output events sequence has a
non-empty `slug`; its `id` is copied from the upstream event (defaulting
to the empty string when absent), so it is non-empty exactly when the
upstream event supplies one. -/
theorem C1_amended_slug_nonempty (env : Env) (f : AllowlistFile) (p : RawResponse)
    (url t : String) (out : OutputDoc)
    (h : main env f (.success p) url t = .ok out) :
    ∀ ne ∈ out.events, ne.slug ≠ "" ∧ ∃ e ∈ p.embeddedEvents, ne.id = e.id.getD "" := by
  by_cases hk : apiKey env = ""
  · rw [main_blank_key hk] at h
    exact Except.noConfusion h
  · rw [main_success hk] at h
    have hout := (Except.ok.inj h).symm
    intro ne hne
    rw [hout] at hne
    obtain ⟨e, he, hpe⟩ := mem_processEvents.mp hne
    obtain ⟨v, rest, hv, hc, hne_eq⟩ := processEvent_eq_some hpe
    subst hne_eq
    refine ⟨?_, e, he, normalizeEvent_id e v⟩
    rw [normalizeEvent_slug]
    exact mkSlug_ne_empty _ _ _ _

/-- C1 (witness): the amended statement applied to the one record of a
concrete run. -/
theorem C1_witness :
    (normalizeEvent evWithId vogueVenue).slug ≠ "" ∧
      ∃ e ∈ payloadOne.embeddedEvents,
        (normalizeEvent evWithId vogueVenue).id = e.id.getD "" :=
  C1_amended_slug_nonempty envOk AllowlistFile.missing payloadOne
    "https://example/q" "2026-10-12T00:00:00Z" outDocOne (by rfl)
    (normalizeEvent evWithId vogueVenue) (by decide)

/-- C2 (counterexample): the claim that with an empty allowlist every
upstream event appears in the output is false on the code: an event with
no embedded venue is skipped even when no allowlist is loaded. -/
theorem C2_counterexample :
    ¬ (∀ out, main envOk AllowlistFile.missing (HttpResult.success ⟨[evNoVenue]⟩)
          "https://example/q" "2026-10-12T00:00:00Z" = .ok out →
        ∀ e ∈ ([evNoVenue] : List RawEvent), ∃ ne ∈ out.events, ne.id = e.id.getD "") := by
  intro h
  have hrun : main envOk AllowlistFile.missing (HttpResult.success ⟨[evNoVenue]⟩)
      "https://example/q" "2026-10-12T00:00:00Z" = .ok outDocEmpty := by rfl
  obtain ⟨ne, hne, -⟩ := h outDocEmpty hrun evNoVenue (by decide)
  simp [outDocEmpty] at hne

/-- C2 (amended): when the loaded allowlist is empty, every upstream event
that has at least one embedded venue appears in the output, normalized
from its first venue; only venue-less events are skipped. -/
theorem C2_amended_no_filtering (env : Env) (f : AllowlistFile) (p : RawResponse)
    (url t : String) (out : OutputDoc) (e : RawEvent) (v : RawVenue) (rest : List RawVenue)
    (hempty : load_allowlist f = ∅)
    (h : main env f (.success p) url t = .ok out)
    (he : e ∈ p.embeddedEvents) (hv : e.venues = v :: rest) :
    normalizeEvent e v ∈ out.events := by
  by_cases hk : apiKey env = ""
  · rw [main_blank_key hk] at h
    exact Except.noConfusion h
  · rw [main_success hk] at h
    have hout := (Except.ok.inj h).symm
    rw [hout]
    show normalizeEvent e v ∈ processEvents (load_allowlist f) p.embeddedEvents
    apply mem_processEvents.mpr
    refine ⟨e, he, ?_⟩
    rw [processEvent_venues_cons hv, hempty]
    simp

/-- C2 (witness): the amended statement applied to a concrete run. -/
theorem C2_witness : normalizeEvent evWithId vogueVenue ∈ outDocOne.events :=
  C2_amended_no_filtering envOk AllowlistFile.missing payloadOne
    "https://example/q" "2026-10-12T00:00:00Z" outDocOne evWithId vogueVenue []
    (by rfl) (by rfl) (by decide) (by rfl)

/-- C3: when the loaded allowlist is non-empty, every record in the output
has a `venueName` belonging to the allowlist, and an event whose trimmed
first-venue name is outside the allowlist is skipped (the loop simply
moves on), not an error. -/
theorem C3_allowlist_filter (a : Finset String) (l : List RawEvent) (ha : a ≠ ∅) :
    (∀ ne ∈ processEvents a l, ne.venueName ∈ a) ∧
    (∀ (e : RawEvent) (rest : List RawEvent),
      (∀ v vs, e.venues = v :: vs → pyStrip (v.name.getD "") ∉ a) →
      processEvents a (e :: rest) = processEvents a rest) := by
  constructor
  · intro ne hne
    obtain ⟨e, he, hpe⟩ := mem_processEvents.mp hne
    obtain ⟨v, rest, hv, hc, hne_eq⟩ := processEvent_eq_some hpe
    push_neg at hc
    rw [hne_eq, normalizeEvent_venueName]
    exact hc ha
  · intro e rest hnotin
    have hnone : processEvent a e = none := by
      cases hv : e.venues with
      | nil => exact processEvent_venues_nil hv
      | cons v vs =>
        rw [processEvent_venues_cons hv]
        exact if_pos ⟨ha, hnotin v vs hv⟩
    simp [processEvents, List.filterMap_cons, hnone]

/-- C3 (witness): the statement applied to a concrete allowlist and list. -/
theorem C3_witness :
    (∀ ne ∈ processEvents (load_allowlist (.parsed ["The Vogue"])) [evWithId],
      ne.venueName ∈ load_allowlist (.parsed ["The Vogue"])) ∧
    (∀ (e : RawEvent) (rest : List RawEvent),
      (∀ v vs, e.venues = v :: vs →
        pyStrip (v.name.getD "") ∉ load_allowlist (.parsed ["The Vogue"])) →
      processEvents (load_allowlist (.parsed ["The Vogue"])) (e :: rest) =
        processEvents (load_allowlist (.parsed ["The Vogue"])) rest) :=
  C3_allowlist_filter (load_allowlist (.parsed ["The Vogue"])) [evWithId] (by decide)

/-- C4: the `dateDisplay` of every normalized record follows the exact
fallback chain of the specification: date and time joined by a space when
both are non-empty, else the local date, else the raw UTC timestamp, else
the empty string. -/
theorem C4_dateDisplay_chain (e : RawEvent) (v : RawVenue) :
    (normalizeEvent e v).dateDisplay =
      dateDisplaySpec ((e.datesStart.getD emptyStart).localDate.getD "")
        ((e.datesStart.getD emptyStart).localTime.getD "")
        ((e.datesStart.getD emptyStart).dateTime.getD "") :=
  pyOr_chain ((e.datesStart.getD emptyStart).localDate.getD "")
    ((e.datesStart.getD emptyStart).localTime.getD "")
    ((e.datesStart.getD emptyStart).dateTime.getD "")

/-- C5: slug generation is a deterministic function of
`(name, venueName, localDate, id)`; the produced slug is non-empty and at
most 97 characters (a base of at most 90, a hyphen, the last six
characters of the id), and a base that cleans to nothing defaults to the
literal `"event"`. -/
theorem C5_slug_deterministic_bounded (n v d i : String) :
    mkSlug n v d i ≠ "" ∧
    (mkSlug n v d i).length ≤ 97 ∧
    (∀ n2 v2 d2 i2, n = n2 → v = v2 → d = d2 → i = i2 →
      mkSlug n v d i = mkSlug n2 v2 d2 i2) ∧
    (∀ s, slugClean s = [] → slugify s = "event") := by
  refine ⟨mkSlug_ne_empty n v d i, mkSlug_length_le n v d i, ?_, ?_⟩
  · intro n2 v2 d2 i2 hn hv hd hi
    rw [hn, hv, hd, hi]
  · intro s hs
    unfold slugify
    rw [hs]
    rfl

/-- C5 (witness): the statement applied to concrete slug inputs. -/
theorem C5_witness :
    mkSlug "Rock Night" "The Vogue" "2026-05-01" "G5vYZ9231abcd" ≠ "" ∧
    (mkSlug "Rock Night" "The Vogue" "2026-05-01" "G5vYZ9231abcd").length ≤ 97 ∧
    (∀ n2 v2 d2 i2, "Rock Night" = n2 → "The Vogue" = v2 → "2026-05-01" = d2 →
      "G5vYZ9231abcd" = i2 →
      mkSlug "Rock Night" "The Vogue" "2026-05-01" "G5vYZ9231abcd" =
        mkSlug n2 v2 d2 i2) ∧
    (∀ s, slugClean s = [] → slugify s = "event") :=
  C5_slug_deterministic_bounded "Rock Night" "The Vogue" "2026-05-01" "G5vYZ9231abcd"

/-- C6: a blank (empty after trimming) API key makes the run fail with the
configuration error regardless of the HTTP outcome, so before any network
activity; a non-blank key never produces that error. -/
theorem C6_api_key_check (env : Env) (f : AllowlistFile) (url t : String) :
    (apiKey env = "" → ∀ http, main env f http url t =
      .error (.configurationError missingKeyMsg)) ∧
    (apiKey env ≠ "" → ∀ http m, main env f http url t ≠
      .error (.configurationError m)) := by
  constructor
  · intro hk http
    exact main_blank_key hk f http url t
  · intro hk http m
    cases http with
    | success p =>
      rw [main_success hk]
      exact fun hcon => Except.noConfusion hcon
    | httpError c r b =>
      unfold main
      rw [if_neg hk]
      intro hcon
      exact RunError.noConfusion (Except.error.inj hcon)

/-- C6 (witness): a blank key fails, a non-blank key passes the check. -/
theorem C6_witness :
    main envBlank AllowlistFile.missing (HttpResult.success ⟨[]⟩)
      "https://example/q" "2026-10-12T00:00:00Z" =
      .error (.configurationError missingKeyMsg) ∧
    main envOk AllowlistFile.missing (HttpResult.success ⟨[]⟩)
      "https://example/q" "2026-10-12T00:00:00Z" ≠
      .error (.configurationError missingKeyMsg) :=
  ⟨(C6_api_key_check envBlank AllowlistFile.missing "https://example/q"
      "2026-10-12T00:00:00Z").1 (by decide) (HttpResult.success ⟨[]⟩),
   (C6_api_key_check envOk AllowlistFile.missing "https://example/q"
      "2026-10-12T00:00:00Z").2 (by decide) (HttpResult.success ⟨[]⟩) missingKeyMsg⟩

/-- C7: the allowlist loader is total over every file state: a missing file
yields the empty set, a parse failure yields the empty set, and a parsed
array yields exactly the trimmed, non-empty strings of its items. -/
theorem C7_load_allowlist_total :
    load_allowlist AllowlistFile.missing = ∅ ∧
    load_allowlist AllowlistFile.malformed = ∅ ∧
    ∀ (items : List String) (s : String),
      s ∈ load_allowlist (AllowlistFile.parsed items) ↔
        s ≠ "" ∧ ∃ x ∈ items, pyStrip x = s := by
  refine ⟨rfl, rfl, ?_⟩
  intro items s
  simp only [load_allowlist, List.mem_toFinset, List.mem_filter, List.mem_map,
    decide_eq_true_eq]
  tauto

/-- C8: an HTTP-level failure makes `fetch` raise a `FetchError` carrying
the status code, reason phrase, request URL and best-effort body; an
unreadable body becomes a placeholder rather than a crash; and the single
raised error aborts the whole run with no retry. -/
theorem C8_fetch_error_contents (url : String) (code : Nat) (reason : String)
    (body : Option String) (env : Env) (f : AllowlistFile) (t : String)
    (hk : apiKey env ≠ "") :
    fetch url (HttpResult.httpError code reason body) =
      .error { code := code, reason := reason, url := url, body := decodeBody body } ∧
    decodeBody none = "(no response body)" ∧
    main env f (HttpResult.httpError code reason body) url t =
      .error (.fetchError { code := code, reason := reason, url := url
                            body := decodeBody body }) := by
  refine ⟨rfl, rfl, ?_⟩
  unfold main
  rw [if_neg hk]
  rfl

/-- C8 (witness): a concrete 401 failure with an unreadable body. -/
theorem C8_witness :
    fetch "https://example/q" (HttpResult.httpError 401 "Unauthorized" none) =
      .error { code := 401, reason := "Unauthorized", url := "https://example/q"
               body := decodeBody none } ∧
    decodeBody none = "(no response body)" ∧
    main envOk AllowlistFile.missing (HttpResult.httpError 401 "Unauthorized" none)
      "https://example/q" "2026-10-12T00:00:00Z" =
      .error (.fetchError { code := 401, reason := "Unauthorized"
                            url := "https://example/q", body := decodeBody none }) :=
  C8_fetch_error_contents "https://example/q" 401 "Unauthorized" none envOk
    AllowlistFile.missing "2026-10-12T00:00:00Z" (by decide)

/-- C9: two runs over the same payload and the same allowlist file both
succeed and agree on the market metadata, the count and the whole events
sequence; only `generatedAt` carries the per-run timestamp. -/
theorem C9_rerun_identical (env : Env) (f : AllowlistFile) (p : RawResponse)
    (url t1 t2 : String) (hk : apiKey env ≠ "") :
    ∃ o1 o2, main env f (.success p) url t1 = .ok o1 ∧
      main env f (.success p) url t2 = .ok o2 ∧
      o1.generatedAt = t1 ∧ o2.generatedAt = t2 ∧
      o1.market = o2.market ∧ o1.count = o2.count ∧ o1.events = o2.events :=
  ⟨_, _, main_success hk, main_success hk, rfl, rfl, rfl, rfl, rfl⟩

/-- C9 (witness): two concrete runs at different generation timestamps. -/
theorem C9_witness :
    ∃ o1 o2, main envOk AllowlistFile.missing (.success payloadOne)
        "https://example/q" "2026-10-12T00:00:00Z" = .ok o1 ∧
      main envOk AllowlistFile.missing (.success payloadOne)
        "https://example/q" "2026-10-13T09:30:00Z" = .ok o2 ∧
      o1.generatedAt = "2026-10-12T00:00:00Z" ∧
      o2.generatedAt = "2026-10-13T09:30:00Z" ∧
      o1.market = o2.market ∧ o1.count = o2.count ∧ o1.events = o2.events :=
  C9_rerun_identical envOk AllowlistFile.missing payloadOne "https://example/q"
    "2026-10-12T00:00:00Z" "2026-10-13T09:30:00Z" (by decide)

/-- C10: for an event with at least one embedded venue, the loop decision
and every venue-derived output field come from the first venue only, and
replacing the remaining venues changes nothing, filtering included. -/
theorem C10_first_venue_only (a : Finset String) (e : RawEvent) (v : RawVenue)
    (rest : List RawVenue) (hv : e.venues = v :: rest) :
    processEvent a e =
      (if a ≠ ∅ ∧ pyStrip (v.name.getD "") ∉ a then none
       else some (normalizeEvent e v)) ∧
    (normalizeEvent e v).venueName = pyStrip (v.name.getD "") ∧
    (normalizeEvent e v).city = v.cityName.getD "" ∧
    (normalizeEvent e v).state = v.stateCode.getD "" ∧
    (normalizeEvent e v).venueUrl = v.url ∧
    (normalizeEvent e v).venueId = v.id ∧
    ∀ rest2, processEvent a (setVenues e (v :: rest2)) =
      processEvent a (setVenues e (v :: rest)) := by
  refine ⟨processEvent_venues_cons hv, rfl, rfl, rfl, rfl, rfl, ?_⟩
  intro rest2
  rw [processEvent_venues_cons
    (show (setVenues e (v :: rest2)).venues = v :: rest2 from rfl)]
  rw [processEvent_venues_cons
    (show (setVenues e (v :: rest)).venues = v :: rest from rfl)]
  rfl

/-- C10 (witness): the statement applied to a concrete event whose venue
tail is replaced. -/
theorem C10_witness :
    processEvent (∅ : Finset String) evWithId =
      (if (∅ : Finset String) ≠ ∅ ∧
          pyStrip (vogueVenue.name.getD "") ∉ (∅ : Finset String) then none
       else some (normalizeEvent evWithId vogueVenue)) ∧
    (normalizeEvent evWithId vogueVenue).venueName =
      pyStrip (vogueVenue.name.getD "") ∧
    (normalizeEvent evWithId vogueVenue).city = vogueVenue.cityName.getD "" ∧
    (normalizeEvent evWithId vogueVenue).state = vogueVenue.stateCode.getD "" ∧
    (normalizeEvent evWithId vogueVenue).venueUrl = vogueVenue.url ∧
    (normalizeEvent evWithId vogueVenue).venueId = vogueVenue.id ∧
    ∀ rest2, processEvent (∅ : Finset String) (setVenues evWithId (vogueVenue :: rest2)) =
      processEvent (∅ : Finset String) (setVenues evWithId (vogueVenue :: [])) :=
  C10_first_venue_only ∅ evWithId vogueVenue [] (by rfl)

end IndyCentral
